import Mathlib

/-!
# Club Management — credential and OTP verification core

Shallow embedding of the authentication routes of the club-management
service (`routes` file handling `/signup`, `/verify-otp`, `/resend-otp`,
`/login`, `/forgot-password`, `/reset-password`) together with the
`Club` mongoose model and the OTP generator from the email utilities.

Modelling conventions:
* MongoDB collections become Lean lists; `findOne` is `List.find?`
  (first document in natural = insertion order), `deleteMany` is a
  `filter`, `deleteOne` erases the first matching document
  (`List.eraseP`), and the unique indexes on club `name` and `email`
  are enforced at `save` time (a duplicate key makes the catch
  branch of the route return a 500 response).
* `Math.random()`-driven OTP generation is made explicit: the caller
  passes `k : Fin 900000` standing for `Math.floor(Math.random() * 900000)`,
  and `generateOTP` renders `100000 + k` in decimal exactly as
  the JavaScript method `Number.prototype.toString` does.
* Time is a `Nat` (seconds).  The routes never read the clock: records
  are only stamped with a creation time on insertion.  Expiry of OTP
  records happens solely through the TTL deletion of the store, which is
  outside the route code.
* The `bcryptjs` library is not part of this repository; it is
  modelled from the spec (§4.1) as an idealized salted hash.
* Input-shape validation (`express-validator`) rejects malformed
  requests before the handler bodies run; the definitions below model
  the handlers on requests that passed validation.
-/

namespace ClubAuth

/-- Decimal digit lists, fuel-indexed so the recursion is structural.
`natDigitsAux fuel n` is the decimal digit string of `n` provided
`fuel` is large enough (`n < 10 ^ fuel`). -/
def natDigitsAux : Nat → Nat → List Char
  | 0, _ => []
  | fuel + 1, n =>
    if n < 10 then [Nat.digitChar n]
    else natDigitsAux fuel (n / 10) ++ [Nat.digitChar (n % 10)]

/-- Decimal rendering of a natural number, exactly as the JavaScript
method `Number.prototype.toString` renders the integers produced by
the OTP generator. -/
def natRepr (n : Nat) : String := String.mk (natDigitsAux (n + 1) n)

/-- The function `generateOTP` from the email utilities:
`Math.floor(100000 + Math.random() * 900000).toString()`.
`k` stands for `Math.floor(Math.random() * 900000)`, the only
randomness, so the produced number is `100000 + k` with
`k < 900000`. -/
def generateOTP (k : Fin 900000) : String := natRepr (100000 + k.val)

/-- Modelled from the spec: the `bcryptjs` library is not in the
repository sources.  Spec §4.1: `hash` applies a randomized salt on
each call, so equal plaintexts give different stored hashes; `verify`
recomputes with the stored salt.  The digest is idealized as the
(salt, plaintext) pair, making `verify` exact. -/
structure BcryptHash where
  salt : Nat
  digest : Nat × String
deriving DecidableEq, Repr

/-- Modelled from the spec: `bcrypt.hash(plaintext, genSalt())` with an
explicit salt argument standing for the randomness of `genSalt`. -/
def bcryptHash (salt : Nat) (plaintext : String) : BcryptHash :=
  ⟨salt, (salt, plaintext)⟩

/-- Modelled from the spec: `bcrypt.compare(candidate, stored)` —
recompute the digest from the candidate and the stored salt and
compare. -/
def bcryptCompare (candidate : String) (h : BcryptHash) : Bool :=
  (h.salt, candidate) == h.digest

/-- A document of the `Club` collection (`models/Club.js`): unique
`name`, unique `email`, hashed `password`, `verified` defaulting to
false.  Members/events are opaque payload out of the core and are
omitted.  `id` is the Mongo `_id`. -/
structure ClubRec where
  id : Nat
  name : String
  description : String
  email : String
  password : BcryptHash
  verified : Bool
deriving DecidableEq, Repr

/-- The method `club.comparePassword(candidate)` from `models/Club.js`. -/
def comparePassword (club : ClubRec) (candidate : String) : Bool :=
  bcryptCompare candidate club.password

/-- A document of the `OTP` collection.  Modelled from the spec for the
fields (the `models/OTP.js` file is not among the sources): key
`email`, value `otp` (the 6-digit code, stored and compared as a
string), and the creation timestamp `createdAt` whose implicit expiry
at `createdAt + 10 minutes` is enforced by the TTL deletion of the store,
not by the route code. -/
structure OTPRec where
  email : String
  otp : String
  createdAt : Nat
deriving DecidableEq, Repr

/-- The persistent state seen by the auth routes: the two collections
plus a counter supplying fresh `_id`s. -/
structure AuthState where
  clubs : List ClubRec
  otps : List OTPRec
  nextId : Nat
deriving DecidableEq, Repr

/-- The HTTP outcomes the auth routes produce.  `okToken` carries the
club id the JWT is signed for. -/
inductive AuthResult where
  | created (email : String)
  | okToken (clubId : Nat)
  | ok
  | badRequest (msg : String)
  | unauthorized (msg : String)
  | forbidden (msg : String)
  | notFound (msg : String)
  | serverError (msg : String)
deriving DecidableEq, Repr

/-- The tail of `POST /signup` after the duplicate check: construct the
club, `save()` it (the unique indexes on `name` and `email` reject a
duplicate key, which the catch branch of the route turns into a 500), create the
OTP record — without deleting prior OTPs for the email — and dispatch
the email (`emailOk` is the outcome of the dispatcher). -/
def signupCreate (name description email password : String) (k : Fin 900000)
    (salt now : Nat) (emailOk : Bool) (s : AuthState) : AuthResult × AuthState :=
  if s.clubs.any (fun c => c.name == name || c.email == email) then
    (.serverError "Error during signup", s)
  else
    let club : ClubRec := ⟨s.nextId, name, description, email, bcryptHash salt password, false⟩
    let s2 : AuthState :=
      { clubs := s.clubs ++ [club]
        otps := s.otps ++ [⟨email, generateOTP k, now⟩]
        nextId := s.nextId + 1 }
    if emailOk then (.created email, s2) else (.serverError "Error during signup", s2)

/-- Route `POST /signup`: look up `findOne({$or : [{email}, {name}]})`; a
verified match is a 400 duplicate, an unverified match is deleted by id
(re-registration), then the new unverified club and its OTP are
created. -/
def signup (name description email password : String) (k : Fin 900000)
    (salt now : Nat) (emailOk : Bool) (s : AuthState) : AuthResult × AuthState :=
  match s.clubs.find? (fun c => c.email == email || c.name == name) with
  | some c =>
    if c.verified then
      (.badRequest "Club with this email or name already exists", s)
    else
      signupCreate name description email password k salt now emailOk
        { s with clubs := s.clubs.filter (fun x => !(x.id == c.id)) }
  | none => signupCreate name description email password k salt now emailOk s

/-- Route `POST /verify-otp`: `OTP.findOne({email, otp})` (no expiry test),
then `Club.findOne({email})`, mark it verified, delete one matching OTP
record (`OTP.deleteOne({email, otp})`), and sign a JWT for the club. -/
def verifyOtp (s : AuthState) (email otp : String) : AuthResult × AuthState :=
  match s.otps.find? (fun o => o.email == email && o.otp == otp) with
  | none => (.badRequest "Invalid or expired OTP", s)
  | some _ =>
    match s.clubs.find? (fun c => c.email == email) with
    | none => (.notFound "Club not found", s)
    | some c =>
      let clubs1 := s.clubs.map (fun x => if x.id == c.id then { x with verified := true } else x)
      let otps1 := s.otps.eraseP (fun o => o.email == email && o.otp == otp)
      (.okToken c.id, { s with clubs := clubs1, otps := otps1 })

/-- Route `POST /resend-otp`: require an unverified club with the email,
`OTP.deleteMany({email})`, create a fresh OTP, dispatch. -/
def resendOtp (email : String) (k : Fin 900000) (now : Nat) (emailOk : Bool)
    (s : AuthState) : AuthResult × AuthState :=
  match s.clubs.find? (fun c => c.email == email && !c.verified) with
  | none => (.notFound "No unverified club found with this email", s)
  | some _ =>
    let s1 : AuthState :=
      { s with otps := s.otps.filter (fun o => !(o.email == email)) ++ [⟨email, generateOTP k, now⟩] }
    if emailOk then (.ok, s1) else (.serverError "Error resending OTP", s1)

/-- Route `POST /login`: find by email (401 if absent), 403 if unverified,
then `comparePassword`; on match sign a JWT. -/
def login (s : AuthState) (email password : String) : AuthResult × AuthState :=
  match s.clubs.find? (fun c => c.email == email) with
  | none => (.unauthorized "Invalid email or password", s)
  | some c =>
    if !c.verified then (.forbidden "Please verify your email first", s)
    else if comparePassword c password then (.okToken c.id, s)
    else (.unauthorized "Invalid email or password", s)

/-- Route `POST /forgot-password`: require a verified club with the email,
`OTP.deleteMany({email})`, create a fresh OTP, dispatch. -/
def forgotPassword (email : String) (k : Fin 900000) (now : Nat) (emailOk : Bool)
    (s : AuthState) : AuthResult × AuthState :=
  match s.clubs.find? (fun c => c.email == email && c.verified) with
  | none => (.notFound "No verified club found with this email", s)
  | some _ =>
    let s1 : AuthState :=
      { s with otps := s.otps.filter (fun o => !(o.email == email)) ++ [⟨email, generateOTP k, now⟩] }
    if emailOk then (.ok, s1) else (.serverError "Error sending reset OTP", s1)

/-- Route `POST /reset-password`: `OTP.findOne({email, otp})` (no expiry
test), then `Club.findOne({email, verified : true})`, store the new
password (re-hashed by the pre-save hook with a fresh salt), delete one
matching OTP record. -/
def resetPassword (s : AuthState) (email otp newPassword : String) (salt : Nat) :
    AuthResult × AuthState :=
  match s.otps.find? (fun o => o.email == email && o.otp == otp) with
  | none => (.badRequest "Invalid or expired OTP", s)
  | some _ =>
    match s.clubs.find? (fun c => c.email == email && c.verified) with
    | none => (.notFound "Club not found", s)
    | some c =>
      let clubs1 := s.clubs.map
        (fun x => if x.id == c.id then { x with password := bcryptHash salt newPassword } else x)
      let otps1 := s.otps.eraseP (fun o => o.email == email && o.otp == otp)
      (.ok, { s with clubs := clubs1, otps := otps1 })

/-! ## Decimal rendering lemmas -/

theorem natDigitsAux_eq_digits :
    ∀ (fuel n : Nat), 1 ≤ n → n < 10 ^ fuel →
      natDigitsAux fuel n = ((Nat.digits 10 n).map Nat.digitChar).reverse := by
  intro fuel
  induction fuel with
  | zero => intro n h1 h2; simp at h2; omega
  | succ f ih =>
    intro n h1 h2
    by_cases h10 : n < 10
    · simp only [natDigitsAux, if_pos h10]
      rw [Nat.digits_of_lt 10 n (by omega) h10]
      simp
    · simp only [natDigitsAux, if_neg h10]
      rw [Nat.digits_def' (b := 10) (by norm_num) (by omega)]
      have hdiv1 : 1 ≤ n / 10 := (Nat.le_div_iff_mul_le (by norm_num)).mpr (by omega)
      have hdiv2 : n / 10 < 10 ^ f := by
        rw [Nat.div_lt_iff_lt_mul (by norm_num)]
        calc n < 10 ^ (f + 1) := h2
          _ = 10 ^ f * 10 := by ring
      rw [List.map_cons, List.reverse_cons, ih (n / 10) hdiv1 hdiv2]

theorem natRepr_eq_digits (n : Nat) (h1 : 1 ≤ n) :
    natRepr n = String.mk (((Nat.digits 10 n).map Nat.digitChar).reverse) := by
  unfold natRepr
  rw [natDigitsAux_eq_digits (n + 1) n h1]
  calc n < 10 ^ n := Nat.lt_pow_self (by norm_num) n
    _ ≤ 10 ^ (n + 1) := Nat.pow_le_pow_right (by norm_num) (by omega)

theorem digits_len_six (n : Nat) (hlow : 100000 ≤ n) (hhigh : n < 1000000) :
    (Nat.digits 10 n).length = 6 := by
  have h1 : n < 10 ^ (Nat.digits 10 n).length := Nat.lt_base_pow_length_digits (by norm_num)
  have h2 : 10 ^ (Nat.digits 10 n).length ≤ 10 * n :=
    Nat.base_pow_length_digits_le 10 n (by norm_num) (by omega)
  have h3 : (10 : ℕ) ^ 5 < 10 ^ (Nat.digits 10 n).length := by
    calc (10 : ℕ) ^ 5 ≤ n := by norm_num; omega
      _ < _ := h1
  have h4 : (10 : ℕ) ^ (Nat.digits 10 n).length < 10 ^ 7 := by
    calc (10 : ℕ) ^ (Nat.digits 10 n).length ≤ 10 * n := h2
      _ < 10 ^ 7 := by omega
  have h5 : 5 < (Nat.digits 10 n).length := (Nat.pow_lt_pow_iff_right (by norm_num)).mp h3
  have h6 : (Nat.digits 10 n).length < 7 := (Nat.pow_lt_pow_iff_right (by norm_num)).mp h4
  omega

theorem generateOTP_data (k : Fin 900000) :
    (generateOTP k).data = ((Nat.digits 10 (100000 + k.val)).map Nat.digitChar).reverse := by
  unfold generateOTP
  rw [natRepr_eq_digits (100000 + k.val) (by omega)]

theorem generateOTP_length (k : Fin 900000) : (generateOTP k).length = 6 := by
  have hk := k.isLt
  show (generateOTP k).data.length = 6
  rw [generateOTP_data, List.length_reverse, List.length_map]
  exact digits_len_six _ (by omega) (by omega)

theorem digitChar_lt_ten_ne_zero :
    ∀ d : Nat, d < 10 → d ≠ 0 → Nat.digitChar d ≠ '0' := by decide

theorem digitChar_lt_ten_isDigit :
    ∀ d : Nat, d < 10 → (Nat.digitChar d).isDigit = true := by decide

theorem generateOTP_head_ne_zero (k : Fin 900000) :
    (generateOTP k).data.head? ≠ some '0' := by
  rw [generateOTP_data, List.head?_reverse, List.getLast?_map]
  have hne : Nat.digits 10 (100000 + k.val) ≠ [] :=
    Nat.digits_ne_nil_iff_ne_zero.mpr (by omega)
  rw [List.getLast?_eq_getLast _ hne]
  intro hcontra
  simp only [Option.map_some'] at hcontra
  have hlast_ne : (Nat.digits 10 (100000 + k.val)).getLast hne ≠ 0 :=
    Nat.getLast_digit_ne_zero 10 (by omega)
  have hlast_lt : (Nat.digits 10 (100000 + k.val)).getLast hne < 10 :=
    Nat.digits_lt_base (by norm_num) (List.getLast_mem hne)
  exact digitChar_lt_ten_ne_zero _ hlast_lt hlast_ne (Option.some.inj hcontra)

theorem generateOTP_all_digits (k : Fin 900000) :
    ∀ c ∈ (generateOTP k).data, c.isDigit = true := by
  intro c hc
  rw [generateOTP_data, List.mem_reverse, List.mem_map] at hc
  obtain ⟨d, hd, rfl⟩ := hc
  exact digitChar_lt_ten_isDigit d (Nat.digits_lt_base (by norm_num) hd)

theorem map_digitChar_inj :
    ∀ (l1 l2 : List Nat), (∀ d ∈ l1, d < 10) → (∀ d ∈ l2, d < 10) →
      l1.map Nat.digitChar = l2.map Nat.digitChar → l1 = l2 := by
  have hpoint : ∀ a : Nat, a < 10 → ∀ b : Nat, b < 10 →
      Nat.digitChar a = Nat.digitChar b → a = b := by decide
  intro l1
  induction l1 with
  | nil => intro l2 _ _ h; cases l2 <;> simp_all
  | cons a t ih =>
    intro l2 hb1 hb2 h
    cases l2 with
    | nil => simp at h
    | cons b t2 =>
      simp only [List.map_cons, List.cons.injEq] at h
      have ha := hpoint a (hb1 a (by simp)) b (hb2 b (by simp)) h.1
      have ht := ih t2 (fun d hd => hb1 d (by simp [hd]))
        (fun d hd => hb2 d (by simp [hd])) h.2
      rw [ha, ht]

theorem generateOTP_injective : Function.Injective generateOTP := by
  intro k1 k2 h
  have hdata : (generateOTP k1).data = (generateOTP k2).data := by rw [h]
  rw [generateOTP_data, generateOTP_data] at hdata
  have hmap := List.reverse_injective hdata
  have hdig := map_digitChar_inj _ _
    (fun d hd => Nat.digits_lt_base (by norm_num) hd)
    (fun d hd => Nat.digits_lt_base (by norm_num) hd) hmap
  have := Nat.digits_inj_iff.mp hdig
  have : k1.val = k2.val := by omega
  exact Fin.ext this

/-! ## C3 — OTP code range -/

/-- C3 (counterexample): the claim asserts codes are drawn from
`"000000"`–`"999999"` with leading zeros possible, but `"000000"` is
not a possible output of `generateOTP`: the generator computes
`Math.floor(100000 + Math.random() * 900000)`, which is at least
100000, so its decimal rendering never begins with `'0'`. -/
theorem claim3_counterexample : "000000" ∉ Set.range generateOTP := by
  rintro ⟨k, hk⟩
  have hhead := generateOTP_head_ne_zero k
  rw [hk] at hhead
  exact hhead rfl

/-- C3 (amended): every code produced by the OTP generator is a string
of exactly 6 ASCII digits whose first digit is never `'0'` — the
rendered number is drawn from 100000–999999 — and distinct random
draws give distinct codes (the generator is injective, so the codes
are uniform over `"100000"`–`"999999"`, not over
`"000000"`–`"999999"`). -/
theorem claim3_generateOTP_range :
    (∀ k : Fin 900000, (generateOTP k).length = 6 ∧
      (∀ c ∈ (generateOTP k).data, c.isDigit = true) ∧
      (generateOTP k).data.head? ≠ some '0') ∧
    Function.Injective generateOTP := by
  refine ⟨fun k => ⟨generateOTP_length k, generateOTP_all_digits k,
    generateOTP_head_ne_zero k⟩, generateOTP_injective⟩

/-- C3 (witness): the amended theorem evaluated at the concrete draw
`k = 0`, which yields the code `"100000"`. -/
theorem claim3_witness :
    (generateOTP 0).length = 6 ∧ ('1' : Char).isDigit = true ∧
      generateOTP 0 = "100000" := by
  refine ⟨(claim3_generateOTP_range.1 0).1, ?_, by rfl⟩
  exact (claim3_generateOTP_range.1 0).2.1 '1' (by decide)

/-! ## Behaviour of the consume operations -/

/-- Route `verify-otp` answers `400 Invalid or expired OTP` exactly when no
record matching `(email, otp)` is in the store. -/
theorem verifyOtp_badRequest_iff (s : AuthState) (email otp : String) :
    (verifyOtp s email otp).1 = AuthResult.badRequest "Invalid or expired OTP" ↔
      s.otps.find? (fun o => o.email == email && o.otp == otp) = none := by
  unfold verifyOtp
  rcases h : s.otps.find? (fun o => o.email == email && o.otp == otp) with _ | r
  · simp [h]
  · rcases h2 : s.clubs.find? (fun c => c.email == email) with _ | c <;> simp [h, h2]

/-- Route `reset-password` answers `400 Invalid or expired OTP` exactly when
no record matching `(email, otp)` is in the store. -/
theorem resetPassword_badRequest_iff (s : AuthState) (email otp newPassword : String)
    (salt : Nat) :
    (resetPassword s email otp newPassword salt).1
        = AuthResult.badRequest "Invalid or expired OTP" ↔
      s.otps.find? (fun o => o.email == email && o.otp == otp) = none := by
  unfold resetPassword
  rcases h : s.otps.find? (fun o => o.email == email && o.otp == otp) with _ | r
  · simp [h]
  · rcases h2 : s.clubs.find? (fun c => c.email == email && c.verified) with _ | c <;>
      simp [h, h2]

/-- A successful `verify-otp` presupposes both lookups succeeded, and
its post-state erases exactly one matching OTP record. -/
theorem verifyOtp_success_elim (s : AuthState) (email otp : String) (x : Nat)
    (hsucc : (verifyOtp s email otp).1 = AuthResult.okToken x) :
    (∃ r, s.otps.find? (fun o => o.email == email && o.otp == otp) = some r) ∧
    (∃ c, s.clubs.find? (fun c => c.email == email) = some c) ∧
    (verifyOtp s email otp).2.otps
      = s.otps.eraseP (fun o => o.email == email && o.otp == otp) := by
  unfold verifyOtp at hsucc ⊢
  rcases h : s.otps.find? (fun o => o.email == email && o.otp == otp) with _ | r
  · rw [h] at hsucc; simp at hsucc
  · rcases h2 : s.clubs.find? (fun c => c.email == email) with _ | c
    · rw [h, h2] at hsucc; simp at hsucc
    · rw [h, h2]
      exact ⟨⟨r, rfl⟩, ⟨c, rfl⟩, rfl⟩

/-- A successful `reset-password` presupposes both lookups succeeded,
and its post-state erases exactly one matching OTP record. -/
theorem resetPassword_success_elim (s : AuthState) (email otp newPassword : String)
    (salt : Nat)
    (hsucc : (resetPassword s email otp newPassword salt).1 = AuthResult.ok) :
    (∃ r, s.otps.find? (fun o => o.email == email && o.otp == otp) = some r) ∧
    (∃ c, s.clubs.find? (fun c => c.email == email && c.verified) = some c) ∧
    (resetPassword s email otp newPassword salt).2.otps
      = s.otps.eraseP (fun o => o.email == email && o.otp == otp) := by
  unfold resetPassword at hsucc ⊢
  rcases h : s.otps.find? (fun o => o.email == email && o.otp == otp) with _ | r
  · rw [h] at hsucc; simp at hsucc
  · rcases h2 : s.clubs.find? (fun c => c.email == email && c.verified) with _ | c
    · rw [h, h2] at hsucc; simp at hsucc
    · rw [h, h2]
      exact ⟨⟨r, rfl⟩, ⟨c, rfl⟩, rfl⟩

/-- Erasing the only occurrence satisfying `p` leaves a list in which
`find? p` fails. -/
theorem find?_eraseP_of_countP_le_one {α : Type} (p : α → Bool) (l : List α)
    (h : l.countP p ≤ 1) : (l.eraseP p).find? p = none := by
  induction l with
  | nil => simp
  | cons a t ih =>
    by_cases hpa : p a = true
    · rw [List.eraseP_cons_of_pos hpa]
      rw [List.countP_cons_of_pos _ _ hpa] at h
      have ht : t.countP p = 0 := by omega
      exact List.find?_eq_none.mpr fun x hx hpx => by
        have := List.countP_eq_zero.mp ht x hx
        exact this hpx
    · rw [List.eraseP_cons_of_neg hpa]
      rw [List.find?_cons_of_neg _ hpa]
      apply ih
      rw [List.countP_cons_of_neg _ _ hpa] at h
      exact h

/-! ## Concrete states used to exercise the operations -/

/-- The empty store. -/
def emptyState : AuthState := ⟨[], [], 0⟩

/-- A store holding an unverified club and an OTP record issued at
time 0 (seconds). -/
def expiredUnverifiedState : AuthState :=
  ⟨[⟨0, "Alpha", "d", "e@x.com", bcryptHash 0 "p", false⟩],
   [⟨"e@x.com", "123456", 0⟩], 1⟩

/-- A store holding a verified club and an OTP record issued at
time 0 (seconds). -/
def expiredVerifiedState : AuthState :=
  ⟨[⟨0, "Alpha", "d", "e@x.com", bcryptHash 0 "p", true⟩],
   [⟨"e@x.com", "123456", 0⟩], 1⟩

/-! ## C1 — at-most-one-valid-OTP invariant -/

/-- C1 (counterexample): signing up twice for the same email (legal
while the account is unverified) leaves two OTP records for that
email, and both codes are consumable — `signup` creates its OTP record
without first deleting the previously issued ones, so the
at-most-one-valid-OTP invariant fails. -/
theorem claim1_counterexample :
    ((signup "Alpha" "d" "a@x.com" "password2" 123456 1 5 true
        (signup "Alpha" "d" "a@x.com" "password1" 23456 0 0 true emptyState).2).2.otps.filter
      (fun o => o.email == "a@x.com")).length = 2 ∧
    (verifyOtp
      (signup "Alpha" "d" "a@x.com" "password2" 123456 1 5 true
        (signup "Alpha" "d" "a@x.com" "password1" 23456 0 0 true emptyState).2).2
      "a@x.com" "123456").1 = AuthResult.okToken 1 ∧
    (verifyOtp
      (signup "Alpha" "d" "a@x.com" "password2" 123456 1 5 true
        (signup "Alpha" "d" "a@x.com" "password1" 23456 0 0 true emptyState).2).2
      "a@x.com" "223456").1 = AuthResult.okToken 1 := by decide

/-- C1 (amended): `resendOtp` and `forgotPassword` delete every
previously issued, unconsumed OTP record for the email before issuing,
leaving exactly one record for that email; `signup`, however, creates
its OTP record without deleting prior ones, so two consecutive signups
for the same email leave several simultaneously valid OTP records (see
the counterexample). -/
theorem claim1_resend_forgot_single_otp
    (s : AuthState) (email1 email2 : String) (k1 k2 : Fin 900000)
    (now1 now2 : Nat) (ok1 ok2 : Bool) (c1 c2 : ClubRec)
    (h1 : s.clubs.find? (fun c => c.email == email1 && !c.verified) = some c1)
    (h2 : s.clubs.find? (fun c => c.email == email2 && c.verified) = some c2) :
    (resendOtp email1 k1 now1 ok1 s).2.otps.filter (fun o => o.email == email1)
      = [⟨email1, generateOTP k1, now1⟩] ∧
    (forgotPassword email2 k2 now2 ok2 s).2.otps.filter (fun o => o.email == email2)
      = [⟨email2, generateOTP k2, now2⟩] := by
  constructor
  · unfold resendOtp
    rw [h1]
    have hstate : ((if ok1 then (AuthResult.ok,
        { s with otps := s.otps.filter (fun o => !(o.email == email1)) ++
          [⟨email1, generateOTP k1, now1⟩] })
      else (AuthResult.serverError "Error resending OTP",
        { s with otps := s.otps.filter (fun o => !(o.email == email1)) ++
          [⟨email1, generateOTP k1, now1⟩] })) : AuthResult × AuthState).2
        = { s with otps := s.otps.filter (fun o => !(o.email == email1)) ++
          [⟨email1, generateOTP k1, now1⟩] } := by
      cases ok1 <;> rfl
    rw [hstate]
    simp [List.filter_append, List.filter_filter]
  · unfold forgotPassword
    rw [h2]
    have hstate : ((if ok2 then (AuthResult.ok,
        { s with otps := s.otps.filter (fun o => !(o.email == email2)) ++
          [⟨email2, generateOTP k2, now2⟩] })
      else (AuthResult.serverError "Error sending reset OTP",
        { s with otps := s.otps.filter (fun o => !(o.email == email2)) ++
          [⟨email2, generateOTP k2, now2⟩] })) : AuthResult × AuthState).2
        = { s with otps := s.otps.filter (fun o => !(o.email == email2)) ++
          [⟨email2, generateOTP k2, now2⟩] } := by
      cases ok2 <;> rfl
    rw [hstate]
    simp [List.filter_append, List.filter_filter]

/-- C1 (witness): the amended theorem applied to a store holding an
unverified club `u@x.com`, a verified club `v@x.com` and two stale OTP
records; both re-issuing operations leave exactly one record for their
email. -/
theorem claim1_witness :
    (resendOtp "u@x.com" 0 50 true
      ⟨[⟨0, "U", "d", "u@x.com", bcryptHash 0 "p", false⟩,
        ⟨1, "V", "d", "v@x.com", bcryptHash 1 "q", true⟩],
       [⟨"u@x.com", "111111", 0⟩, ⟨"v@x.com", "222222", 0⟩], 2⟩).2.otps.filter
      (fun o => o.email == "u@x.com") = [⟨"u@x.com", generateOTP 0, 50⟩] ∧
    (forgotPassword "v@x.com" 1 60 true
      ⟨[⟨0, "U", "d", "u@x.com", bcryptHash 0 "p", false⟩,
        ⟨1, "V", "d", "v@x.com", bcryptHash 1 "q", true⟩],
       [⟨"u@x.com", "111111", 0⟩, ⟨"v@x.com", "222222", 0⟩], 2⟩).2.otps.filter
      (fun o => o.email == "v@x.com") = [⟨"v@x.com", generateOTP 1, 60⟩] :=
  claim1_resend_forgot_single_otp _ "u@x.com" "v@x.com" 0 1 50 60 true true
    ⟨0, "U", "d", "u@x.com", bcryptHash 0 "p", false⟩
    ⟨1, "V", "d", "v@x.com", bcryptHash 1 "q", true⟩
    (by decide) (by decide)

/-! ## C2 — OTP expiry -/

/-- C2 (counterexample): an OTP record issued at time 0 is more than
10 minutes (600 s) old at time 700, yet consuming it succeeds — both
`verify-otp` and `reset-password` look the record up by `(email, otp)`
only and take no clock input at all, so a record that the TTL
deletion of the store has not yet removed is consumed regardless of
its age. -/
theorem claim2_counterexample :
    (⟨"e@x.com", "123456", 0⟩ : OTPRec) ∈ expiredUnverifiedState.otps ∧
    (⟨"e@x.com", "123456", 0⟩ : OTPRec).createdAt + 600 < 700 ∧
    (verifyOtp expiredUnverifiedState "e@x.com" "123456").1 = AuthResult.okToken 0 ∧
    (resetPassword expiredVerifiedState "e@x.com" "123456" "newpass1" 7).1
      = AuthResult.ok := by decide

/-- C2 (amended): the consume operations perform no expiry check at
all — they take no current-time input, and they fail with
`InvalidOrExpired` exactly when no record matching `(email, code)` is
present in the store; expiry is enforced solely by the background
TTL deletion of the store, so an expired record it has not yet removed
is consumed successfully. -/
theorem claim2_consume_checks_presence_only :
    ∀ (s : AuthState) (email otp newPassword : String) (salt : Nat),
      ((verifyOtp s email otp).1 = AuthResult.badRequest "Invalid or expired OTP" ↔
        s.otps.find? (fun o => o.email == email && o.otp == otp) = none) ∧
      ((resetPassword s email otp newPassword salt).1
          = AuthResult.badRequest "Invalid or expired OTP" ↔
        s.otps.find? (fun o => o.email == email && o.otp == otp) = none) := by
  intro s email otp newPassword salt
  exact ⟨verifyOtp_badRequest_iff s email otp,
    resetPassword_badRequest_iff s email otp newPassword salt⟩

/-! ## C4 — single-use OTP -/

/-- C4 (counterexample): `OTP.deleteOne({email, otp})` removes a single
record, so when two records with the same `(email, code)` pair exist —
reachable because `signup` does not clear prior OTPs and the random
generator can repeat a code — a second `verify-otp` with the very same
pair succeeds again after the first successful consumption. -/
theorem claim4_counterexample :
    (verifyOtp
      (signup "Alpha" "d" "c4@x.com" "password2" 23456 1 5 true
        (signup "Alpha" "d" "c4@x.com" "password1" 23456 0 0 true emptyState).2).2
      "c4@x.com" "123456").1 = AuthResult.okToken 1 ∧
    (verifyOtp
      (verifyOtp
        (signup "Alpha" "d" "c4@x.com" "password2" 23456 1 5 true
          (signup "Alpha" "d" "c4@x.com" "password1" 23456 0 0 true emptyState).2).2
        "c4@x.com" "123456").2
      "c4@x.com" "123456").1 = AuthResult.okToken 1 := by decide

/-- C4 (amended): provided at most one stored record matches the
`(email, code)` pair — which holds whenever prior OTPs were invalidated
before issue, but can fail after repeated signups with a colliding
random code — a successful consumption by either `verify-otp` or
`reset-password` deletes that record, and every subsequent consume
call (`verify-otp` or `reset-password`) with the same pair fails with
`InvalidOrExpired`. -/
theorem claim4_single_use (s : AuthState)
    (email code newPassword1 newPassword2 : String) (salt1 salt2 x : Nat)
    (huniq : s.otps.countP (fun o => o.email == email && o.otp == code) ≤ 1) :
    ((verifyOtp s email code).1 = AuthResult.okToken x →
      (verifyOtp (verifyOtp s email code).2 email code).1
          = AuthResult.badRequest "Invalid or expired OTP" ∧
      (resetPassword (verifyOtp s email code).2 email code newPassword2 salt2).1
          = AuthResult.badRequest "Invalid or expired OTP") ∧
    ((resetPassword s email code newPassword1 salt1).1 = AuthResult.ok →
      (verifyOtp (resetPassword s email code newPassword1 salt1).2 email code).1
          = AuthResult.badRequest "Invalid or expired OTP" ∧
      (resetPassword (resetPassword s email code newPassword1 salt1).2
          email code newPassword2 salt2).1
          = AuthResult.badRequest "Invalid or expired OTP") := by
  constructor
  · intro hsucc
    obtain ⟨_, _, hotps⟩ := verifyOtp_success_elim s email code x hsucc
    have hnone : (verifyOtp s email code).2.otps.find?
        (fun o => o.email == email && o.otp == code) = none := by
      rw [hotps]
      exact find?_eraseP_of_countP_le_one _ _ huniq
    exact ⟨(verifyOtp_badRequest_iff _ _ _).mpr hnone,
      (resetPassword_badRequest_iff _ _ _ _ _).mpr hnone⟩
  · intro hsucc
    obtain ⟨_, _, hotps⟩ := resetPassword_success_elim s email code newPassword1 salt1 hsucc
    have hnone : (resetPassword s email code newPassword1 salt1).2.otps.find?
        (fun o => o.email == email && o.otp == code) = none := by
      rw [hotps]
      exact find?_eraseP_of_countP_le_one _ _ huniq
    exact ⟨(verifyOtp_badRequest_iff _ _ _).mpr hnone,
      (resetPassword_badRequest_iff _ _ _ _ _).mpr hnone⟩

/-- C4 (witness): the amended theorem on a store holding one verified
club and exactly one OTP record, so both initial consumptions succeed
there; after a successful `verify-otp` — and likewise after a
successful `reset-password` — both consume operations reject the
pair. -/
theorem claim4_witness :
    (verifyOtp
      (verifyOtp ⟨[⟨0, "A", "d", "w@x.com", bcryptHash 0 "p", true⟩],
        [⟨"w@x.com", "123456", 0⟩], 1⟩ "w@x.com" "123456").2
      "w@x.com" "123456").1 = AuthResult.badRequest "Invalid or expired OTP" ∧
    (resetPassword
      (verifyOtp ⟨[⟨0, "A", "d", "w@x.com", bcryptHash 0 "p", true⟩],
        [⟨"w@x.com", "123456", 0⟩], 1⟩ "w@x.com" "123456").2
      "w@x.com" "123456" "newpass2" 9).1 = AuthResult.badRequest "Invalid or expired OTP" ∧
    (verifyOtp
      (resetPassword ⟨[⟨0, "A", "d", "w@x.com", bcryptHash 0 "p", true⟩],
        [⟨"w@x.com", "123456", 0⟩], 1⟩ "w@x.com" "123456" "newpass1" 8).2
      "w@x.com" "123456").1 = AuthResult.badRequest "Invalid or expired OTP" ∧
    (resetPassword
      (resetPassword ⟨[⟨0, "A", "d", "w@x.com", bcryptHash 0 "p", true⟩],
        [⟨"w@x.com", "123456", 0⟩], 1⟩ "w@x.com" "123456" "newpass1" 8).2
      "w@x.com" "123456" "newpass2" 9).1 = AuthResult.badRequest "Invalid or expired OTP" := by
  have h := claim4_single_use
    ⟨[⟨0, "A", "d", "w@x.com", bcryptHash 0 "p", true⟩],
     [⟨"w@x.com", "123456", 0⟩], 1⟩
    "w@x.com" "123456" "newpass1" "newpass2" 8 9 0 (by decide)
  have hv := h.1 (by decide)
  have hr := h.2 (by decide)
  exact ⟨hv.1, hv.2, hr.1, hr.2⟩

/-! ## C5 / C6 — signup duplicate handling -/

/-- A store holding an unverified club `a@x.com` (inserted first) and a
verified club named `Beta`: the mixed situation in which one account
matches the email of a signup and a different account matches its
name. -/
def mixedState : AuthState :=
  ⟨[⟨0, "Alpha", "d", "a@x.com", bcryptHash 0 "password1", false⟩,
    ⟨1, "Beta", "d", "b@x.com", bcryptHash 1 "password2", true⟩], [], 2⟩

/-- C5 (counterexample): in `mixedState` an unverified account with
email `a@x.com` exists, yet a second signup with that same email (and
name `Beta`, held by a verified club) does not succeed: the duplicate
lookup finds the unverified club first and deletes it, and the
subsequent insert trips the unique index on `name`, so the call
returns 500 with the old account gone and no replacement created. -/
theorem claim5_counterexample :
    mixedState.clubs.find? (fun c => c.email == "a@x.com")
      = some ⟨0, "Alpha", "d", "a@x.com", bcryptHash 0 "password1", false⟩ ∧
    (signup "Beta" "d2" "a@x.com" "password3" 5 2 9 true mixedState).1
      = AuthResult.serverError "Error during signup" ∧
    (signup "Beta" "d2" "a@x.com" "password3" 5 2 9 true mixedState).2.clubs.find?
      (fun c => c.email == "a@x.com") = none := by decide

/-- C5 (amended): if the first club matching the email or name of the
signup request
is unverified and no *other* club holds the requested name or email,
then signup succeeds with 201, the old account is deleted first (its id
is no longer resolvable), and a new unverified account with a freshly
salted password hash replaces it. -/
theorem claim5_reregistration (s : AuthState)
    (name description email password : String) (k : Fin 900000) (salt now : Nat)
    (u : ClubRec)
    (hwf : ∀ c ∈ s.clubs, c.id < s.nextId)
    (hfind : s.clubs.find? (fun c => c.email == email || c.name == name) = some u)
    (hunv : u.verified = false)
    (hnoclash : ∀ c ∈ s.clubs, c.id ≠ u.id → c.name ≠ name ∧ c.email ≠ email) :
    (signup name description email password k salt now true s).1
        = AuthResult.created email ∧
    (signup name description email password k salt now true s).2.clubs
        = s.clubs.filter (fun x => !(x.id == u.id))
          ++ [⟨s.nextId, name, description, email, bcryptHash salt password, false⟩] ∧
    (signup name description email password k salt now true s).2.clubs.find?
        (fun c => c.id == u.id) = none := by
  have hany : (s.clubs.filter (fun x => !(x.id == u.id))).any
      (fun c => c.name == name || c.email == email) = false := by
    rw [List.any_eq_false]
    intro c hc
    rw [List.mem_filter] at hc
    obtain ⟨hcm, hcid⟩ := hc
    have hid : c.id ≠ u.id := by simpa using hcid
    obtain ⟨hn, he⟩ := hnoclash c hcm hid
    simp [hn, he]
  have hmem : u ∈ s.clubs := List.mem_of_find?_eq_some hfind
  have huid : u.id < s.nextId := hwf u hmem
  unfold signup
  simp only [hfind, hunv, Bool.false_eq_true, if_false]
  unfold signupCreate
  simp only [hany, Bool.false_eq_true, if_false, if_true]
  refine ⟨trivial, trivial, ?_⟩
  rw [List.find?_eq_none]
  intro c hc
  rcases List.mem_append.mp hc with hleft | hright
  · rw [List.mem_filter] at hleft
    simpa using hleft.2
  · rw [List.mem_singleton] at hright
    subst hright
    simp
    omega

/-- C5 (witness): re-signing up for `o@x.com` while the only existing
account with that email is unverified succeeds, deletes the old
account and installs a freshly hashed unverified one. -/
theorem claim5_witness :
    (signup "Old" "d" "o@x.com" "newpass1" 0 3 7 true
      ⟨[⟨0, "Old", "d", "o@x.com", bcryptHash 0 "p", false⟩],
       [⟨"o@x.com", "111111", 0⟩], 1⟩).1 = AuthResult.created "o@x.com" ∧
    (signup "Old" "d" "o@x.com" "newpass1" 0 3 7 true
      ⟨[⟨0, "Old", "d", "o@x.com", bcryptHash 0 "p", false⟩],
       [⟨"o@x.com", "111111", 0⟩], 1⟩).2.clubs.find? (fun c => c.id == 0) = none := by
  have h := claim5_reregistration
    ⟨[⟨0, "Old", "d", "o@x.com", bcryptHash 0 "p", false⟩],
     [⟨"o@x.com", "111111", 0⟩], 1⟩
    "Old" "d" "o@x.com" "newpass1" 0 3 7
    ⟨0, "Old", "d", "o@x.com", bcryptHash 0 "p", false⟩
    (by decide) (by decide) rfl (by decide)
  exact ⟨h.1, h.2.2⟩

/-- C6 (counterexample): a verified account named `Delta` exists, and a
signup using that name does not fail with `DuplicateActive` (400): the
duplicate lookup finds the unverified club `g@x.com` first (the signup
reuses its email), deletes it, and the insert then trips the unique
index on `name`, so the call returns 500 — and the failed call deleted
an account, contradicting the no-mutation part of the claim as well. -/
theorem claim6_counterexample :
    (⟨1, "Delta", "d", "dd@x.com", bcryptHash 1 "q", true⟩ : ClubRec) ∈
      (⟨[⟨0, "Gamma", "d", "g@x.com", bcryptHash 0 "p", false⟩,
         ⟨1, "Delta", "d", "dd@x.com", bcryptHash 1 "q", true⟩], [], 2⟩ : AuthState).clubs ∧
    (signup "Delta" "d2" "g@x.com" "password9" 5 2 9 true
      ⟨[⟨0, "Gamma", "d", "g@x.com", bcryptHash 0 "p", false⟩,
        ⟨1, "Delta", "d", "dd@x.com", bcryptHash 1 "q", true⟩], [], 2⟩).1
      = AuthResult.serverError "Error during signup" ∧
    (signup "Delta" "d2" "g@x.com" "password9" 5 2 9 true
      ⟨[⟨0, "Gamma", "d", "g@x.com", bcryptHash 0 "p", false⟩,
        ⟨1, "Delta", "d", "dd@x.com", bcryptHash 1 "q", true⟩], [], 2⟩).2.clubs
      = [⟨1, "Delta", "d", "dd@x.com", bcryptHash 1 "q", true⟩] := by decide

/-- C6 (amended): when the club found by the duplicate lookup — the
first club whose email or name matches the request — is verified,
signup fails with 400 `DuplicateActive` and the state is unchanged (no
account created or deleted).  When an unverified club matches the
lookup first while a different verified club holds the requested name
or email, the call instead deletes the unverified club and fails with
500 (see the counterexample). -/
theorem claim6_duplicate_active (s : AuthState)
    (name description email password : String) (k : Fin 900000)
    (salt now : Nat) (emailOk : Bool) (v : ClubRec)
    (hfind : s.clubs.find? (fun c => c.email == email || c.name == name) = some v)
    (hver : v.verified = true) :
    signup name description email password k salt now emailOk s
      = (AuthResult.badRequest "Club with this email or name already exists", s) := by
  unfold signup
  simp only [hfind, hver, if_true]

/-- C6 (witness): signing up with the email of an existing verified
club is rejected with 400 and leaves the store untouched. -/
theorem claim6_witness :
    signup "Fresh" "d" "v6@x.com" "password7" 4 8 11 true
      ⟨[⟨0, "V", "d", "v6@x.com", bcryptHash 0 "p", true⟩], [], 1⟩
      = (AuthResult.badRequest "Club with this email or name already exists",
         ⟨[⟨0, "V", "d", "v6@x.com", bcryptHash 0 "p", true⟩], [], 1⟩) :=
  claim6_duplicate_active _ "Fresh" "d" "v6@x.com" "password7" 4 8 11 true
    ⟨0, "V", "d", "v6@x.com", bcryptHash 0 "p", true⟩ (by decide) rfl

/-! ## C7 — login gating -/

/-- C7: when the club found by email is unverified, login answers
403 `NotVerified` and leaves the store untouched, for every supplied
password — in particular no session token (`okToken`) is issued for an
unverified account. -/
theorem claim7_login_gating (s : AuthState) (email password : String) (c : ClubRec)
    (hfind : s.clubs.find? (fun c => c.email == email) = some c)
    (hunv : c.verified = false) :
    login s email password = (AuthResult.forbidden "Please verify your email first", s) := by
  unfold login
  simp only [hfind, hunv, Bool.not_false, if_true]

/-- C7 (witness): logging in with the correct password of an
unverified club still yields 403. -/
theorem claim7_witness :
    login ⟨[⟨0, "U7", "d", "u7@x.com", bcryptHash 2 "secret7", false⟩], [], 1⟩
        "u7@x.com" "secret7"
      = (AuthResult.forbidden "Please verify your email first",
         ⟨[⟨0, "U7", "d", "u7@x.com", bcryptHash 2 "secret7", false⟩], [], 1⟩) :=
  claim7_login_gating _ "u7@x.com" "secret7"
    ⟨0, "U7", "d", "u7@x.com", bcryptHash 2 "secret7", false⟩ (by decide) rfl

/-! ## C8 — no rollback on dispatch failure -/

/-- When a signup whose dispatch succeeds answers 201, the same signup
with a failing dispatcher answers a 500 delivery error, reaches exactly
the same store state (nothing is rolled back), and that state holds the
just-issued OTP record. -/
theorem signup_dispatch_failure (name description email password : String)
    (k : Fin 900000) (salt now : Nat) (s : AuthState)
    (h1 : (signup name description email password k salt now true s).1
      = AuthResult.created email) :
    (signup name description email password k salt now false s).1
        = AuthResult.serverError "Error during signup" ∧
    (signup name description email password k salt now false s).2
        = (signup name description email password k salt now true s).2 ∧
    (⟨email, generateOTP k, now⟩ : OTPRec)
        ∈ (signup name description email password k salt now false s).2.otps := by
  unfold signup signupCreate at h1 ⊢
  rcases h : s.clubs.find? (fun c => c.email == email || c.name == name) with _ | c <;>
    simp only [h] at h1 ⊢
  · by_cases hany : (s.clubs.any (fun c => c.name == name || c.email == email)) = true
    · simp [hany] at h1
    · simp only [Bool.not_eq_true] at hany
      simp only [hany, Bool.false_eq_true, if_false, if_true] at h1 ⊢
      exact ⟨trivial, trivial, List.mem_append_right _ (List.mem_singleton_self _)⟩
  · by_cases hver : c.verified = true
    · simp [hver] at h1
    · simp only [Bool.not_eq_true] at hver
      simp only [hver, Bool.false_eq_true, if_false] at h1 ⊢
      by_cases hany : ((s.clubs.filter (fun x => !(x.id == c.id))).any
          (fun c => c.name == name || c.email == email)) = true
      · simp [hany] at h1
      · simp only [Bool.not_eq_true] at hany
        simp only [hany, Bool.false_eq_true, if_false, if_true] at h1 ⊢
        exact ⟨trivial, trivial, List.mem_append_right _ (List.mem_singleton_self _)⟩

/-- Same as `signup_dispatch_failure` for `resend-otp`. -/
theorem resendOtp_dispatch_failure (email : String) (k : Fin 900000) (now : Nat)
    (s : AuthState)
    (h2 : (resendOtp email k now true s).1 = AuthResult.ok) :
    (resendOtp email k now false s).1 = AuthResult.serverError "Error resending OTP" ∧
    (resendOtp email k now false s).2 = (resendOtp email k now true s).2 ∧
    (⟨email, generateOTP k, now⟩ : OTPRec) ∈ (resendOtp email k now false s).2.otps := by
  unfold resendOtp at h2 ⊢
  rcases h : s.clubs.find? (fun c => c.email == email && !c.verified) with _ | c <;>
    simp only [h] at h2 ⊢
  · simp at h2
  · exact ⟨rfl, rfl, List.mem_append_right _ (List.mem_singleton_self _)⟩

/-- Same as `signup_dispatch_failure` for `forgot-password`. -/
theorem forgotPassword_dispatch_failure (email : String) (k : Fin 900000) (now : Nat)
    (s : AuthState)
    (h3 : (forgotPassword email k now true s).1 = AuthResult.ok) :
    (forgotPassword email k now false s).1
        = AuthResult.serverError "Error sending reset OTP" ∧
    (forgotPassword email k now false s).2 = (forgotPassword email k now true s).2 ∧
    (⟨email, generateOTP k, now⟩ : OTPRec)
        ∈ (forgotPassword email k now false s).2.otps := by
  unfold forgotPassword at h3 ⊢
  rcases h : s.clubs.find? (fun c => c.email == email && c.verified) with _ | c <;>
    simp only [h] at h3 ⊢
  · simp at h3
  · exact ⟨rfl, rfl, List.mem_append_right _ (List.mem_singleton_self _)⟩

/-- C8: whenever a signup / resend-otp / forgot-password call would
have succeeded but the email dispatcher fails, the operation surfaces a
500 delivery error while the store ends in exactly the state of the
successful run — the account mutation and the just-issued OTP record
are not rolled back and the new OTP record is present in the store. -/
theorem claim8_no_rollback (s : AuthState)
    (name description email1 password : String) (k1 : Fin 900000) (salt now1 : Nat)
    (email2 : String) (k2 : Fin 900000) (now2 : Nat)
    (email3 : String) (k3 : Fin 900000) (now3 : Nat)
    (h1 : (signup name description email1 password k1 salt now1 true s).1
      = AuthResult.created email1)
    (h2 : (resendOtp email2 k2 now2 true s).1 = AuthResult.ok)
    (h3 : (forgotPassword email3 k3 now3 true s).1 = AuthResult.ok) :
    ((signup name description email1 password k1 salt now1 false s).1
        = AuthResult.serverError "Error during signup" ∧
      (signup name description email1 password k1 salt now1 false s).2
        = (signup name description email1 password k1 salt now1 true s).2 ∧
      (⟨email1, generateOTP k1, now1⟩ : OTPRec)
        ∈ (signup name description email1 password k1 salt now1 false s).2.otps) ∧
    ((resendOtp email2 k2 now2 false s).1
        = AuthResult.serverError "Error resending OTP" ∧
      (resendOtp email2 k2 now2 false s).2 = (resendOtp email2 k2 now2 true s).2 ∧
      (⟨email2, generateOTP k2, now2⟩ : OTPRec)
        ∈ (resendOtp email2 k2 now2 false s).2.otps) ∧
    ((forgotPassword email3 k3 now3 false s).1
        = AuthResult.serverError "Error sending reset OTP" ∧
      (forgotPassword email3 k3 now3 false s).2
        = (forgotPassword email3 k3 now3 true s).2 ∧
      (⟨email3, generateOTP k3, now3⟩ : OTPRec)
        ∈ (forgotPassword email3 k3 now3 false s).2.otps) :=
  ⟨signup_dispatch_failure name description email1 password k1 salt now1 s h1,
   resendOtp_dispatch_failure email2 k2 now2 s h2,
   forgotPassword_dispatch_failure email3 k3 now3 s h3⟩

/-- C8 (witness): with an unverified club `u8@x.com` and a verified
club `v8@x.com` in store, each of the three operations run with a
failing dispatcher reports a 500 delivery error (while, per the
theorem, keeping the mutations of the successful run). -/
theorem claim8_witness :
    (signup "Fresh" "d" "f8@x.com" "password8" 7 3 11 false
      ⟨[⟨0, "U8", "d", "u8@x.com", bcryptHash 0 "p", false⟩,
        ⟨1, "V8", "d", "v8@x.com", bcryptHash 1 "q", true⟩], [], 2⟩).1
      = AuthResult.serverError "Error during signup" ∧
    (resendOtp "u8@x.com" 8 12 false
      ⟨[⟨0, "U8", "d", "u8@x.com", bcryptHash 0 "p", false⟩,
        ⟨1, "V8", "d", "v8@x.com", bcryptHash 1 "q", true⟩], [], 2⟩).1
      = AuthResult.serverError "Error resending OTP" ∧
    (forgotPassword "v8@x.com" 9 13 false
      ⟨[⟨0, "U8", "d", "u8@x.com", bcryptHash 0 "p", false⟩,
        ⟨1, "V8", "d", "v8@x.com", bcryptHash 1 "q", true⟩], [], 2⟩).1
      = AuthResult.serverError "Error sending reset OTP" := by
  have h := claim8_no_rollback
    ⟨[⟨0, "U8", "d", "u8@x.com", bcryptHash 0 "p", false⟩,
      ⟨1, "V8", "d", "v8@x.com", bcryptHash 1 "q", true⟩], [], 2⟩
    "Fresh" "d" "f8@x.com" "password8" 7 3 11 "u8@x.com" 8 12 "v8@x.com" 9 13
    (by decide) (by decide) (by decide)
  exact ⟨h.1.1, h.2.1.1, h.2.2.1⟩

/-! ## C9 — password round-trip -/

/-- C9: a club whose stored hash was produced from a plaintext (with
any salt) accepts that plaintext in `comparePassword` and rejects every
other plaintext; distinct salts give distinct stored hashes, so equal
passwords do not leak equality of hashes (spec-modelled `bcryptjs`). -/
theorem claim9_password_roundtrip (c : ClubRec) (salt : Nat) (p p2 : String)
    (hpw : c.password = bcryptHash salt p) :
    comparePassword c p = true ∧
    (p2 ≠ p → comparePassword c p2 = false) ∧
    (∀ salt2 : Nat, salt2 ≠ salt → bcryptHash salt2 p ≠ bcryptHash salt p) := by
  refine ⟨?_, ?_, ?_⟩
  · simp [comparePassword, bcryptCompare, hpw, bcryptHash]
  · intro hne
    simp [comparePassword, bcryptCompare, hpw, bcryptHash, hne]
  · intro salt2 hne hcontra
    exact hne (congrArg BcryptHash.salt hcontra)

/-- C9 (witness): the round-trip at concrete values — the correct
password verifies, a wrong one does not, and re-hashing with a fresh
salt yields a different stored hash. -/
theorem claim9_witness :
    comparePassword ⟨0, "A9", "d", "a9@x.com", bcryptHash 3 "secret99", true⟩
        "secret99" = true ∧
    comparePassword ⟨0, "A9", "d", "a9@x.com", bcryptHash 3 "secret99", true⟩
        "wrong99" = false ∧
    bcryptHash 4 "secret99" ≠ bcryptHash 3 "secret99" := by
  have h := claim9_password_roundtrip
    ⟨0, "A9", "d", "a9@x.com", bcryptHash 3 "secret99", true⟩ 3 "secret99" "wrong99" rfl
  exact ⟨h.1, h.2.1 (by decide), h.2.2 4 (by decide)⟩

/-! ## C10 — OTP record survives AccountNotFound -/

/-- C10: when the submitted `(email, otp)` pair matches a stored OTP
record but `verify-otp` finds no club for the email (resp.
`reset-password` finds no verified club), the call answers 404
`Club not found` and returns the store completely unchanged: the
matched OTP record is not deleted — it remains available to a later
consume call — and no account state changes. -/
theorem claim10_otp_survives (s : AuthState) (email otp newPassword : String)
    (salt : Nat) (r : OTPRec)
    (hr : s.otps.find? (fun o => o.email == email && o.otp == otp) = some r) :
    (s.clubs.find? (fun c => c.email == email) = none →
      verifyOtp s email otp = (AuthResult.notFound "Club not found", s)) ∧
    (s.clubs.find? (fun c => c.email == email && c.verified) = none →
      resetPassword s email otp newPassword salt
        = (AuthResult.notFound "Club not found", s)) := by
  constructor
  · intro h2
    unfold verifyOtp
    simp only [hr, h2]
  · intro h2
    unfold resetPassword
    simp only [hr, h2]

/-- C10 (witness): with a stored OTP record for `t10@x.com` and no club
at all, both consume operations answer 404 and leave the store — the
OTP record included — exactly as it was. -/
theorem claim10_witness :
    verifyOtp ⟨[], [⟨"t10@x.com", "123456", 0⟩], 0⟩ "t10@x.com" "123456"
      = (AuthResult.notFound "Club not found", ⟨[], [⟨"t10@x.com", "123456", 0⟩], 0⟩) ∧
    resetPassword ⟨[], [⟨"t10@x.com", "123456", 0⟩], 0⟩ "t10@x.com" "123456"
        "newpass10" 3
      = (AuthResult.notFound "Club not found", ⟨[], [⟨"t10@x.com", "123456", 0⟩], 0⟩) := by
  have h := claim10_otp_survives ⟨[], [⟨"t10@x.com", "123456", 0⟩], 0⟩
    "t10@x.com" "123456" "newpass10" 3 ⟨"t10@x.com", "123456", 0⟩ (by decide)
  exact ⟨h.1 (by decide), h.2 (by decide)⟩

end ClubAuth
